import Mathlib

/-!
Verification development for the QQ-plotter statistical pipeline
(src/data_loader.py, src/distribution_fitter.py, src/qq_plotter.py,
src/main.py).

Modelling conventions:
* IEEE-754 doubles are modelled by `RVal`: an exact rational, or one of
  the non-finite values NaN / +Inf / -Inf.  Arithmetic on `RVal` follows
  the IEEE propagation rules used by numpy (NaN absorbs, Inf - Inf = NaN,
  0 * Inf = NaN, ...).  Real square root is modelled by `Rat.sqrt`, which
  is exact on the perfect-square rationals appearing in the theorems
  below.
* Python strings are modelled as `List Char`.  Python's `str.isdigit` is
  modelled for the ASCII digits (the file-naming contract `YYYY.txt`
  involves only ASCII names).
* The filesystem directory handed to `load_data` is modelled by `Folder`:
  the column catalog obtained from `columns.yaml` plus the directory
  listing (file name and parsed whitespace-separated rows).
* Python exceptions are modelled by the inductive `PyErr`; each
  constructor records which `raise` site (and message class) produced it.
-/

/-- A double-precision value: an exact rational or a non-finite value. -/
inductive RVal : Type
  | r (q : ℚ)
  | nan
  | pinf
  | ninf
deriving DecidableEq, Repr

namespace RVal

/-- IEEE addition on modelled doubles. -/
def add : RVal → RVal → RVal
  | nan, _ => nan
  | _, nan => nan
  | pinf, ninf => nan
  | ninf, pinf => nan
  | pinf, _ => pinf
  | _, pinf => pinf
  | ninf, _ => ninf
  | _, ninf => ninf
  | r p, r q => r (p + q)

/-- IEEE negation. -/
def neg : RVal → RVal
  | nan => nan
  | pinf => ninf
  | ninf => pinf
  | r q => r (-q)

/-- IEEE subtraction. -/
def sub (a b : RVal) : RVal := add a (neg b)

/-- IEEE multiplication (0 * Inf = NaN, as in numpy). -/
def mul : RVal → RVal → RVal
  | nan, _ => nan
  | _, nan => nan
  | pinf, pinf => pinf
  | pinf, ninf => ninf
  | ninf, pinf => ninf
  | ninf, ninf => pinf
  | pinf, r q => if q > 0 then pinf else if q < 0 then ninf else nan
  | r q, pinf => if q > 0 then pinf else if q < 0 then ninf else nan
  | ninf, r q => if q > 0 then ninf else if q < 0 then pinf else nan
  | r q, ninf => if q > 0 then ninf else if q < 0 then pinf else nan
  | r p, r q => r (p * q)

/-- Division of a modelled double by a natural count (used for means);
division by zero yields NaN, matching numpy's mean of an empty array. -/
def divNat (a : RVal) (n : Nat) : RVal :=
  if n = 0 then nan
  else match a with
    | nan => nan
    | pinf => pinf
    | ninf => ninf
    | r q => r (q / (n : ℚ))

/-- Square root; `Rat.sqrt` is exact on the perfect squares used here. -/
def sqrt : RVal → RVal
  | nan => nan
  | pinf => pinf
  | ninf => nan
  | r q => if q < 0 then nan else r (Rat.sqrt q)

/-- IEEE strict-less-than: every comparison with NaN is false. -/
def lt : RVal → RVal → Bool
  | r p, r q => p < q
  | ninf, r _ => true
  | ninf, pinf => true
  | r _, pinf => true
  | _, _ => false

/-- Predicate tested by `np.isfinite`. -/
def isFinite : RVal → Bool
  | r _ => true
  | _ => false

/-- Predicate tested by `pd.isna` / NaN droppers. -/
def isNan : RVal → Bool
  | nan => true
  | _ => false

instance : Add RVal := ⟨add⟩
instance : Sub RVal := ⟨sub⟩
instance : Mul RVal := ⟨mul⟩
instance : Neg RVal := ⟨neg⟩

/-- Python `min(a, b)`: returns `b` exactly when `b < a`. -/
def pymin (a b : RVal) : RVal := if lt b a then b else a

/-- Python `max(a, b)`: returns `b` exactly when `a < b`. -/
def pymax (a b : RVal) : RVal := if lt a b then b else a

end RVal

/-- Sum of a list of modelled doubles (numpy sum of a 1-d array). -/
def listSumR (l : List RVal) : RVal := l.foldr RVal.add (RVal.r 0)

/-- Mean of a numpy array (`arr.mean()`): sum divided by length; NaN on an
empty array. -/
def pyMean (l : List RVal) : RVal := RVal.divNat (listSumR l) l.length

/-- Population standard deviation of a numpy array (`arr.std()`, ddof=0):
square root of the mean of squared deviations. -/
def pyStd (l : List RVal) : RVal :=
  RVal.sqrt (pyMean (l.map (fun x => RVal.mul (RVal.sub x (pyMean l)) (RVal.sub x (pyMean l)))))

/-- The value `np.nanmin`: minimum of the non-NaN entries, NaN if none. -/
def nanminR (l : List RVal) : RVal :=
  -- filter out NaN entries, then fold with the strict comparison
  match l.filter (fun x => !x.isNan) with
  | [] => RVal.nan
  | x :: xs => xs.foldl (fun a b => if RVal.lt b a then b else a) x

/-- The value `np.nanmax`: maximum of the non-NaN entries, NaN if none. -/
def nanmaxR (l : List RVal) : RVal :=
  match l.filter (fun x => !x.isNan) with
  | [] => RVal.nan
  | x :: xs => xs.foldl (fun a b => if RVal.lt a b then b else a) x

/-- Decimal digit character, `48 + d` in ASCII. -/
def digitChar (d : Nat) : Char := Char.ofNat (48 + d)

/-- Digit accumulator for `natChars`; the fuel argument only bounds the
recursion depth and is structurally decreasing, so the function reduces
inside the kernel. -/
def natCharsAux : Nat → Nat → List Char → List Char
  | 0, _, acc => acc
  | fuel + 1, n, acc =>
      if n < 10 then digitChar n :: acc
      else natCharsAux fuel (n / 10) (digitChar (n % 10) :: acc)

/-- Decimal rendering of a natural number, as Python's `str` produces it
(a number has at most `n + 1` digits, so the fuel never runs out). -/
def natChars (n : Nat) : List Char := natCharsAux (n + 1) n []

/-- A YAML-loaded year selector: a Python `int` or a Python `str`. -/
inductive Year : Type
  | int (n : Nat)
  | str (s : List Char)
deriving DecidableEq, Repr

/-- The value of Python `str(year)`. -/
def pyStrYear : Year → List Char
  | Year.int n => natChars n
  | Year.str s => s

/-- The Python test `year == "all"` (an `int` never equals a `str`). -/
def yearIsAll : Year → Bool
  | Year.int _ => false
  | Year.str s => s = "all".toList

/-- The modelled exceptions, one constructor per raise site. -/
inductive PyErr : Type
  | invalidFolder
      -- load_data line 83: ValueError "Папка ... не существует" (InputError)
  | concatNoObjects
      -- load_data line 110: pandas ValueError "No objects to concatenate"
  | badColumn
      -- pandas read_csv: usecols names a column absent from the catalog
  | emptyAfterFilter
      -- main line 85: ValueError "Нет данных для анализа после фильтрации"
  | unsupportedDist (tag : List Char)
      -- distribution_fitter line 49: ValueError naming the distribution
  | emptyAfterClean
      -- qq_plotter line 66: ValueError "Нет данных для построения графика"
deriving DecidableEq, Repr

/-- A data directory: the column catalog from `columns.yaml`, and the
directory listing with each file's parsed whitespace-separated rows. -/
structure Folder : Type where
  columns : List (List Char)
  files : List (List Char × List (List RVal))
deriving DecidableEq, Repr

/-- Python `str.isdigit` restricted to ASCII digits (empty string is not
a digit string). -/
def pyIsdigit (s : List Char) : Bool := !s.isEmpty && s.all Char.isDigit

/-- The segment of a file name before the first dot:
`filename.split(".")[0]`. -/
def firstSeg (name : List Char) : List Char := name.takeWhile (fun c => c ≠ '.')

/-- The name filter of `load_data` (lines 88-94): the name must end in
".txt" and its first dot-segment must be a 4-character digit string. -/
def acceptName (name : List Char) : Bool :=
  ".txt".toList.isSuffixOf name
    && pyIsdigit (firstSeg name) && (firstSeg name).length = 4

/-- The year test of `load_data` (line 97):
`year == "all" or str(file_year) == str(year)`. -/
def yearMatches (year : Year) (fileYear : List Char) : Bool :=
  yearIsAll year || fileYear = pyStrYear year

/-- Whether a directory entry is read as a data file for the given
selector: it passes the name filter and the year test. -/
def entryRead (year : Year) (name : List Char) : Bool :=
  acceptName name && yearMatches year (firstSeg name)

/-- Per-file extraction (lines 101-107): keep the target column of each
row, replace missing-value sentinels by NaN, and drop NaN rows. -/
def readFile (idx : Nat) (missing : List ℚ) (rows : List (List RVal)) :
    List RVal :=
  rows.filterMap (fun row =>
    let v := row.getD idx RVal.nan
    let v' := match v with
      | RVal.r q => if q ∈ missing then RVal.nan else RVal.r q
      | w => w
    if v'.isNan then none else some v')

/-- The embedding of `load_data` (src/data_loader.py lines 52-111).  The
folder argument is `none` when `os.path.isdir` fails.  Matching zero
files makes `pd.concat` raise (concatNoObjects); a target column absent
from the catalog makes the first `read_csv` raise (badColumn). -/
def load_data (folder : Option Folder) (year : Year) (column : List Char)
    (missing : List ℚ) : Except PyErr (List RVal) :=
  match folder with
  | none => Except.error PyErr.invalidFolder
  | some f =>
    let matched := f.files.filter (fun e => entryRead year e.1)
    if matched.isEmpty then Except.error PyErr.concatNoObjects
    else
      match f.columns.indexOf? column with
      | none => Except.error PyErr.badColumn
      | some idx =>
          Except.ok ((matched.map (fun e => readFile idx missing e.2)).flatten)

/-- The ingestion step of `main` (src/main.py lines 78-87): `load_data`
followed by the empty-data check that raises the
"no data remained after filtering" ValueError. -/
def ingest (folder : Option Folder) (year : Year) (column : List Char)
    (missing : List ℚ) : Except PyErr (List RVal) :=
  match load_data folder year column missing with
  | Except.error e => Except.error e
  | Except.ok data =>
      if data.length = 0 then Except.error PyErr.emptyAfterFilter
      else Except.ok data

/-- The spec's exact file-name pattern: the name is literally four ASCII
digits followed by ".txt" (no extra dots, no other characters). -/
def specExactName (name : List Char) : Bool :=
  (name.take 4).length = 4 && (name.take 4).all Char.isDigit
    && name.drop 4 = ".txt".toList

/-- The closed enumeration of fittable distribution families
(src/distribution_fitter.py lines 28-32). -/
inductive Family : Type
  | normal
  | burr
  | gamma
deriving DecidableEq, Repr

/-- A scipy parameter vector: shape parameters, location, scale. -/
structure Params : Type where
  shapes : List ℚ
  loc : ℚ
  scale : ℚ
deriving DecidableEq, Repr

/-- A frozen scipy distribution: a family and its parameter vector. -/
structure FittedDist : Type where
  fam : Family
  params : Params
deriving DecidableEq, Repr

/-- The numeric optimizer behind `dist.fit(data, floc=0)`, abstracted: for
a family and a sample it returns the free (shape, scale) parameters found
by maximum likelihood.  The location is not among its outputs because the
call pins it with `floc=0`. -/
def FitFn : Type := Family → List RVal → List ℚ × ℚ

/-- The parameter vector produced by `dist.fit(data, floc=0)`: the
optimizer's free parameters with the location constrained to zero. -/
def fitFloc0 (fit : FitFn) (fam : Family) (data : List RVal) : Params :=
  ⟨(fit fam data).1, 0, (fit fam data).2⟩

/-- The dictionary lookup on lines 28-32: tag → scipy distribution. -/
def resolveFamily (tag : List Char) : Option Family :=
  if tag = "normal".toList then some Family.normal
  else if tag = "burr".toList then some Family.burr
  else if tag = "gamma".toList then some Family.gamma
  else none

/-- The cache file name `f"{dist_type}_{year}_params.yaml"` (line 35). -/
def paramsFileName (tag : List Char) (year : Year) : List Char :=
  tag ++ ('_' :: pyStrYear year) ++ "_params.yaml".toList

/-- The parameter-cache directory: file name → stored parameter vector. -/
def Cache : Type := List (List Char × Params)

/-- The embedding of `get_distribution`
(src/distribution_fitter.py lines 12-52).  Returns the frozen
distribution together with the cache directory state after the call. -/
def get_distribution (fit : FitFn) (data : List RVal) (year : Year)
    (dist_type : List Char) (cache : Cache) :
    Except PyErr (FittedDist × Cache) :=
  if dist_type = "demo".toList then
    -- demo mode: stats.norm(loc=0, scale=1), cache untouched
    Except.ok (⟨Family.normal, ⟨[], 0, 1⟩⟩, cache)
  else
    match resolveFamily dist_type with
    | none => Except.error (PyErr.unsupportedDist dist_type)
    | some fam =>
      let key := paramsFileName dist_type year
      match cache.lookup key with
      | some p => Except.ok (⟨fam, p⟩, cache)
      | none =>
          let p := fitFloc0 fit fam data
          Except.ok (⟨fam, p⟩, (key, p) :: cache)

/-- numpy `np.linspace a b n`: `n` evenly spaced values from `a` to `b`
inclusive; `[a]` when `n = 1`. -/
def linspace (a b : ℚ) (n : Nat) : List ℚ :=
  if n = 0 then []
  else if n = 1 then [a]
  else (List.range n).map
    (fun i : Nat => a + (b - a) * (i : ℚ) / ((n : ℚ) - 1))

/-- numpy `np.linspace` over modelled doubles (used for the band fill). -/
def linspaceR (a b : RVal) (n : Nat) : List RVal :=
  if n = 0 then []
  else if n = 1 then [a]
  else (List.range n).map
    (fun i => RVal.add a (RVal.mul (RVal.sub b a) (RVal.r ((i : ℚ) / ((n : ℚ) - 1)))))

/-- The finite entries of an array, as rationals: the result of
`sample[np.isfinite(sample)]`. -/
def cleanQ (data : List RVal) : List ℚ :=
  data.filterMap (fun x => match x with
    | RVal.r q => some q
    | _ => none)

/-- The geometric output of `qq_plot`: the plotted quantile pairs, the
reference-line endpoints, the three dispersion markers, and the band-fill
profile, each present only when drawn. -/
structure QQOut : Type where
  points : List (RVal × ℚ)
  refLine : Option (RVal × RVal)
  meanMarker : Option RVal
  lowMarker : Option RVal
  highMarker : Option RVal
  fillX : List RVal
  fillLow : List RVal
  fillHigh : List RVal
deriving DecidableEq, Repr

/-- The embedding of `qq_plot` (src/qq_plotter.py lines 14-192), keeping
the computed geometry and dropping pure styling.  `ppf` is the fitted
distribution's quantile function; `n_sigma` is the band multiplier. -/
def qq_plot (ppf : ℚ → RVal) (data : List RVal) (line : Bool)
    (n_sigma : ℚ) : Except PyErr QQOut :=
  let sampleQ := cleanQ data
  if sampleQ.length = 0 then Except.error PyErr.emptyAfterClean
  else
    let sorted := sampleQ.insertionSort (fun a b => a ≤ b)
    let quantiles := (linspace (1/100) (99/100) sampleQ.length).map ppf
    let points := quantiles.zip sorted
    if line then
      let minVal := RVal.pymin (nanminR quantiles) (nanminR (sorted.map RVal.r))
      let maxVal := RVal.pymax (nanmaxR quantiles) (nanmaxR (sorted.map RVal.r))
      -- lines 107-108: mean and std are taken from the RAW input array
      let meanPoint := pyMean data
      let delta := RVal.mul (RVal.r n_sigma) (pyStd data)
      let low := RVal.sub meanPoint delta
      let high := RVal.add meanPoint delta
      let xStraight := linspaceR (RVal.r 0) low 100
      let xDiag := linspaceR low high 100
      let xAll := xStraight ++ xDiag
      Except.ok
        { points := points
          refLine := some (minVal, maxVal)
          meanMarker := some meanPoint
          lowMarker := some low
          highMarker := some high
          fillX := xAll
          fillLow := xStraight.map (fun _ => low) ++ xDiag
          fillHigh := xAll.map (fun _ => high) }
    else
      Except.ok
        { points := points
          refLine := none
          meanMarker := none
          lowMarker := none
          highMarker := none
          fillX := []
          fillLow := []
          fillHigh := [] }

/-- Observation: did the call succeed. -/
def qqOk (e : Except PyErr QQOut) : Bool :=
  match e with
  | Except.ok _ => true
  | Except.error _ => false

/-- Observation: the quantile pairs of a successful call. -/
def qqPoints (e : Except PyErr QQOut) : List (RVal × ℚ) :=
  match e with
  | Except.ok o => o.points
  | Except.error _ => []

/-- Observation: the reference-line endpoints of a successful call. -/
def qqRefLine (e : Except PyErr QQOut) : Option (RVal × RVal) :=
  match e with
  | Except.ok o => o.refLine
  | Except.error _ => none

/-- Observation: the mean marker of a successful call. -/
def qqMeanMarker (e : Except PyErr QQOut) : Option RVal :=
  match e with
  | Except.ok o => o.meanMarker
  | Except.error _ => none

/-- Observation: the lower band marker of a successful call. -/
def qqLowMarker (e : Except PyErr QQOut) : Option RVal :=
  match e with
  | Except.ok o => o.lowMarker
  | Except.error _ => none

/-- Observation: the upper band marker of a successful call. -/
def qqHighMarker (e : Except PyErr QQOut) : Option RVal :=
  match e with
  | Except.ok o => o.highMarker
  | Except.error _ => none

theorem digitChar_isDigit (d : Nat) (h : d < 10) :
    (digitChar d).isDigit = true := by
  interval_cases d <;> decide

theorem mem_natCharsAux_isDigit (fuel : Nat) :
    ∀ (n : Nat) (acc : List Char) (c : Char),
      c ∈ natCharsAux fuel n acc → c.isDigit = true ∨ c ∈ acc := by
  induction fuel with
  | zero => intro n acc c h; exact Or.inr h
  | succ fuel ih =>
    intro n acc c h
    rw [natCharsAux] at h
    by_cases hn : n < 10
    · rw [if_pos hn] at h
      rcases List.mem_cons.mp h with hc | hc
      · exact Or.inl (hc ▸ digitChar_isDigit n hn)
      · exact Or.inr hc
    · rw [if_neg hn] at h
      rcases ih (n / 10) (digitChar (n % 10) :: acc) c h with hd | hm
      · exact Or.inl hd
      · rcases List.mem_cons.mp hm with hc | hc
        · exact Or.inl (hc ▸ digitChar_isDigit (n % 10) (Nat.mod_lt n (by omega)))
        · exact Or.inr hc

theorem natChars_ne_all (n : Nat) : natChars n ≠ "all".toList := by
  intro h
  have ha : 'a' ∈ natChars n := by rw [h]; decide
  rcases mem_natCharsAux_isDigit (n + 1) n [] 'a' ha with hd | hm
  · exact absurd hd (by decide)
  · exact absurd hm (List.not_mem_nil _)

theorem yearMatches_int_str (n : Nat) (fy : List Char) :
    yearMatches (Year.int n) fy = yearMatches (Year.str (natChars n)) fy := by
  simp only [yearMatches, yearIsAll, pyStrYear, Bool.false_or]
  rw [decide_eq_false (natChars_ne_all n), Bool.false_or]

/-- C10: for every directory, target column and missing-value set, calling
ingestion with an integer year and with the same year written as a decimal
string yields identical results: the selector is compared against
file-name years after string conversion, so its numeric type never
affects which files match. -/
theorem year_selector_type_irrelevant (folder : Option Folder) (n : Nat)
    (column : List Char) (missing : List ℚ) :
    ingest folder (Year.int n) column missing
      = ingest folder (Year.str (natChars n)) column missing := by
  have he : (fun e : List Char × List (List RVal) => entryRead (Year.int n) e.1)
      = (fun e : List Char × List (List RVal) =>
          entryRead (Year.str (natChars n)) e.1) := by
    funext e
    unfold entryRead
    rw [yearMatches_int_str]
  cases folder with
  | none => rfl
  | some f =>
    unfold ingest load_data
    rw [he]

/-- C6: for every Sample, year key and cache state, the family tag "demo"
yields the fixed standard-normal distribution (location 0, scale 1),
without reading the Sample and without reading or writing any cache
entry. -/
theorem demo_fixed_standard_normal (fit : FitFn) (data : List RVal)
    (year : Year) (cache : Cache) :
    get_distribution fit data year "demo".toList cache
      = Except.ok (⟨Family.normal, ⟨[], 0, 1⟩⟩, cache) := rfl

/-- C9: for every family tag outside {normal, burr, gamma} that is not
"demo", and for every Sample, year key and cache state, the Fitter fails
with the ValueError naming the unsupported distribution (the spec's
ConfigurationError). -/
theorem unknown_family_configuration_error (fit : FitFn) (data : List RVal)
    (year : Year) (tag : List Char) (cache : Cache)
    (hdemo : tag ≠ "demo".toList) (hfam : resolveFamily tag = none) :
    get_distribution fit data year tag cache
      = Except.error (PyErr.unsupportedDist tag) := by
  unfold get_distribution
  rw [if_neg hdemo, hfam]

theorem unknown_family_configuration_error_witness :
    get_distribution (fun _ _ => ([], 1)) [RVal.r 1] (Year.int 2005)
        "cauchy".toList []
      = Except.error (PyErr.unsupportedDist "cauchy".toList) :=
  unknown_family_configuration_error (fun _ _ => ([], 1)) [RVal.r 1]
    (Year.int 2005) "cauchy".toList [] (by decide) rfl

theorem resolveFamily_ne_demo {tag : List Char} {fam : Family}
    (h : resolveFamily tag = some fam) : tag ≠ "demo".toList := by
  intro h'
  rw [h'] at h
  have hd : resolveFamily "demo".toList = none := rfl
  rw [hd] at h
  exact Option.noConfusion h

/-- C8: for every non-demo recognized family tag, on a cache miss the
Fitter computes the parameter vector with `dist.fit(data, floc=0)` (the
maximum-likelihood optimizer with the location constrained to zero,
abstracted as `fitFloc0`), persists that vector to the cache location,
and returns the distribution frozen at exactly that vector; the returned
location parameter is zero. -/
theorem cache_miss_fit_floc0_persist (fit : FitFn) (data : List RVal)
    (year : Year) (tag : List Char) (cache : Cache) (fam : Family)
    (hfam : resolveFamily tag = some fam)
    (hmiss : cache.lookup (paramsFileName tag year) = none) :
    get_distribution fit data year tag cache
        = Except.ok (⟨fam, fitFloc0 fit fam data⟩,
            (paramsFileName tag year, fitFloc0 fit fam data) :: cache)
      ∧ (fitFloc0 fit fam data).loc = 0 := by
  constructor
  · unfold get_distribution
    rw [if_neg (resolveFamily_ne_demo hfam), hfam]
    simp only [hmiss]
  · rfl

theorem cache_miss_fit_floc0_persist_witness :
    get_distribution (fun _ _ => ([5], 2)) [RVal.r 1] (Year.int 2005)
        "gamma".toList []
        = Except.ok (⟨Family.gamma, ⟨[5], 0, 2⟩⟩,
            [(paramsFileName "gamma".toList (Year.int 2005), ⟨[5], 0, 2⟩)])
      ∧ (fitFloc0 (fun _ _ => ([5], 2)) Family.gamma [RVal.r 1]).loc = 0 :=
  cache_miss_fit_floc0_persist (fun _ _ => ([5], 2)) [RVal.r 1]
    (Year.int 2005) "gamma".toList [] Family.gamma rfl rfl

/-- C3: for every (family tag, year) key with a cache entry, the Fitter
returns the distribution frozen at the cached parameter vector loaded
verbatim, leaving the cache unchanged, independently of the current
Sample and of the fitting optimizer; moreover after a first call persists
a fit for a missing key, a later call with the same key and a perturbed
Sample returns exactly the persisted vector. -/
theorem cache_hit_verbatim (fit fit' : FitFn) (data data' : List RVal)
    (year : Year) (tag : List Char) (cache : Cache) (fam : Family)
    (p : Params) (hfam : resolveFamily tag = some fam)
    (hhit : cache.lookup (paramsFileName tag year) = some p) :
    (get_distribution fit data year tag cache = Except.ok (⟨fam, p⟩, cache)
      ∧ get_distribution fit' data' year tag cache
          = Except.ok (⟨fam, p⟩, cache))
    ∧ ∀ cache₀ : Cache,
        cache₀.lookup (paramsFileName tag year) = none →
        get_distribution fit' data' year tag
            ((paramsFileName tag year, fitFloc0 fit fam data) :: cache₀)
          = Except.ok (⟨fam, fitFloc0 fit fam data⟩,
              (paramsFileName tag year, fitFloc0 fit fam data) :: cache₀) := by
  have hne := resolveFamily_ne_demo hfam
  refine ⟨⟨?_, ?_⟩, ?_⟩
  · unfold get_distribution
    rw [if_neg hne, hfam]
    simp only [hhit]
  · unfold get_distribution
    rw [if_neg hne, hfam]
    simp only [hhit]
  · intro cache₀ _
    unfold get_distribution
    rw [if_neg hne, hfam]
    simp only [List.lookup_cons_self]

theorem cache_hit_verbatim_witness :
    (get_distribution (fun _ _ => ([], 1)) [RVal.r 1] (Year.int 2005)
          "normal".toList
          [(paramsFileName "normal".toList (Year.int 2005), ⟨[], 0, 3⟩)]
        = Except.ok (⟨Family.normal, ⟨[], 0, 3⟩⟩,
            [(paramsFileName "normal".toList (Year.int 2005), ⟨[], 0, 3⟩)])
      ∧ get_distribution (fun _ _ => ([], 7)) [RVal.r 42, RVal.r 43]
          (Year.int 2005) "normal".toList
          [(paramsFileName "normal".toList (Year.int 2005), ⟨[], 0, 3⟩)]
        = Except.ok (⟨Family.normal, ⟨[], 0, 3⟩⟩,
            [(paramsFileName "normal".toList (Year.int 2005), ⟨[], 0, 3⟩)]))
    ∧ get_distribution (fun _ _ => ([], 7)) [RVal.r 42, RVal.r 43]
          (Year.int 2005) "normal".toList
          [(paramsFileName "normal".toList (Year.int 2005),
            fitFloc0 (fun _ _ => ([], 1)) Family.normal [RVal.r 1])]
        = Except.ok
            (⟨Family.normal,
              fitFloc0 (fun _ _ => ([], 1)) Family.normal [RVal.r 1]⟩,
            [(paramsFileName "normal".toList (Year.int 2005),
              fitFloc0 (fun _ _ => ([], 1)) Family.normal [RVal.r 1])]) :=
  ⟨(cache_hit_verbatim (fun _ _ => ([], 1)) (fun _ _ => ([], 7)) [RVal.r 1]
      [RVal.r 42, RVal.r 43] (Year.int 2005) "normal".toList
      [(paramsFileName "normal".toList (Year.int 2005), ⟨[], 0, 3⟩)]
      Family.normal ⟨[], 0, 3⟩ rfl rfl).1,
    (cache_hit_verbatim (fun _ _ => ([], 1)) (fun _ _ => ([], 7)) [RVal.r 1]
      [RVal.r 42, RVal.r 43] (Year.int 2005) "normal".toList
      [(paramsFileName "normal".toList (Year.int 2005), ⟨[], 0, 3⟩)]
      Family.normal ⟨[], 0, 3⟩ rfl rfl).2 [] rfl⟩

/-- C1 counterexample: with one data file `1999.txt` and selector 2005,
the selector matches zero files and ingestion fails inside `load_data` at
`pd.concat` with the generic "no objects to concatenate" ValueError — not
with the ValueError stating no data remained after filtering, which is
raised only by the post-load check in `main`. -/
theorem ingest_zero_files_not_filter_message :
    ingest (some ⟨[['A']], [("1999.txt".toList, [[RVal.r 1]])]⟩)
        (Year.int 2005) ['A'] []
      = Except.error PyErr.concatNoObjects
    ∧ PyErr.concatNoObjects ≠ PyErr.emptyAfterFilter :=
  ⟨rfl, by decide⟩

/-- C1 (amended): an empty ingestion always fails with a ValueError
(the spec's InputError class), and ingestion never returns an empty
Sample; when the selector matched no files the failure is the
concatenation step's "no objects to concatenate" error raised inside
`load_data`, while the error stating no data remained after filtering is
raised by the check after `load_data` exactly when matched files existed
but every target-column value was missing. -/
theorem ingest_empty_sample_spec (f : Folder) (year : Year)
    (column : List Char) (missing : List ℚ) :
    ((f.files.filter (fun e => entryRead year e.1)).isEmpty = true →
      ingest (some f) year column missing
        = Except.error PyErr.concatNoObjects)
    ∧ (∀ idx : Nat,
        (f.files.filter (fun e => entryRead year e.1)).isEmpty = false →
        f.columns.indexOf? column = some idx →
        ((f.files.filter (fun e => entryRead year e.1)).map
            (fun e => readFile idx missing e.2)).flatten = [] →
        ingest (some f) year column missing
          = Except.error PyErr.emptyAfterFilter)
    ∧ (∀ l, ingest (some f) year column missing = Except.ok l → l ≠ []) := by
  refine ⟨?_, ?_, ?_⟩
  · intro h
    simp [ingest, load_data, h]
  · intro idx h1 h2 h3
    simp [ingest, load_data, h1, h2, h3]
  · intro l hl
    unfold ingest at hl
    cases hload : load_data (some f) year column missing with
    | error e => rw [hload] at hl; exact Except.noConfusion hl
    | ok data =>
      rw [hload] at hl
      have hl' : (if data.length = 0 then Except.error PyErr.emptyAfterFilter
          else Except.ok data) = Except.ok l := hl
      by_cases hz : data.length = 0
      · rw [if_pos hz] at hl'
        exact Except.noConfusion hl'
      · rw [if_neg hz] at hl'
        injection hl' with hdl
        intro hnil
        apply hz
        rw [hdl, hnil]
        rfl

theorem ingest_empty_sample_spec_witness :
    ingest (some ⟨[['A']], [("2005.txt".toList, [[RVal.r 9]])]⟩)
        (Year.int 2005) ['A'] [9]
      = Except.error PyErr.emptyAfterFilter :=
  (ingest_empty_sample_spec ⟨[['A']], [("2005.txt".toList, [[RVal.r 9]])]⟩
    (Year.int 2005) ['A'] [9]).2.1 0 (by decide) (by decide) (by decide)

/-- C2 counterexample: the directory entry `2005.extra.txt` has extra
dots, so by the claim it should be silently skipped; but
`filename.split(".")[0]` is the 4-digit string `2005`, so the file passes
the filter and its data is read into the Sample, although its name is not
exactly `<4-digit-year>.txt`. -/
theorem name_filter_extra_dots_read :
    ingest (some ⟨[['A']], [("2005.extra.txt".toList, [[RVal.r 7]])]⟩)
        (Year.str "all".toList) ['A'] []
      = Except.ok [RVal.r 7]
    ∧ specExactName "2005.extra.txt".toList = false :=
  ⟨rfl, rfl⟩

theorem digit_ne_dot {c : Char} (h : c.isDigit = true) : c ≠ '.' := by
  intro hc
  rw [hc] at h
  exact absurd h (by decide)

theorem takeWhile_digits_append (t : List Char)
    (h : ∀ c ∈ t, c.isDigit = true) :
    (t ++ ".txt".toList).takeWhile (fun c => c ≠ '.') = t := by
  induction t with
  | nil => rfl
  | cons c cs ih =>
    have hne : c ≠ '.' := digit_ne_dot (h c (List.mem_cons_self c cs))
    have ih' := ih (fun d hd => h d (List.mem_cons_of_mem c hd))
    simp only [List.cons_append, List.takeWhile_cons, decide_not] at *
    rw [if_pos (by simp [hne]), ih']

/-- C2 (amended): a directory entry is read as a data file iff its name
ends in ".txt" and the segment before the FIRST dot is exactly a 4-digit
string (so every exact `YYYY.txt` name is accepted, but names with extra
dots after a 4-digit first segment are also accepted); every entry that
fails this filter is silently skipped: removing it from the directory
never changes the result of ingestion and raises no error. -/
theorem name_filter_spec :
    (∀ name : List Char, specExactName name = true → acceptName name = true)
    ∧ (∀ (cols : List (List Char))
        (pre post : List (List Char × List (List RVal)))
        (e : List Char × List (List RVal)) (year : Year)
        (column : List Char) (missing : List ℚ),
        acceptName e.1 = false →
        ingest (some ⟨cols, pre ++ e :: post⟩) year column missing
          = ingest (some ⟨cols, pre ++ post⟩) year column missing)
    ∧ (∀ (year : Year) (name : List Char),
        entryRead year name
          = (acceptName name && yearMatches year (firstSeg name))) := by
  refine ⟨?_, ?_, fun _ _ => rfl⟩
  case refine_2 =>
    intro cols pre post e year column missing hacc
    have he : entryRead year e.1 = false := by
      unfold entryRead
      rw [hacc]
      rfl
    have hfe : (pre ++ e :: post).filter (fun x => entryRead year x.1)
        = (pre ++ post).filter (fun x => entryRead year x.1) := by
      simp [List.filter_append, List.filter_cons, he]
    unfold ingest
    simp only [load_data]
    rw [hfe]
  · intro name h
    simp only [specExactName, Bool.and_eq_true, decide_eq_true_eq,
      List.all_eq_true] at h
    obtain ⟨⟨h1, h2⟩, h3⟩ := h
    have hname : name = name.take 4 ++ ".txt".toList := by
      conv_lhs => rw [← List.take_append_drop 4 name]
      rw [h3]
    have hfs : firstSeg name = name.take 4 := by
      unfold firstSeg
      conv_lhs => rw [hname]
      exact takeWhile_digits_append (name.take 4) h2
    simp only [acceptName, Bool.and_eq_true]
    refine ⟨⟨?_, ?_⟩, ?_⟩
    · rw [List.isSuffixOf_iff_suffix]
      exact ⟨name.take 4, hname.symm⟩
    · simp only [pyIsdigit, hfs, Bool.and_eq_true, Bool.not_eq_true',
        List.all_eq_true]
      constructor
      · rw [List.isEmpty_eq_false_iff_exists_mem]
        have : 0 < (name.take 4).length := by rw [h1]; norm_num
        obtain ⟨c, hc⟩ := List.exists_mem_of_length_pos this
        exact ⟨c, hc⟩
      · exact h2
    · rw [hfs]
      simp [h1]

theorem name_filter_spec_witness :
    acceptName "2005.txt".toList = true
    ∧ ingest (some ⟨[['A']],
          [("2003.txt".toList, [[RVal.r 4]]),
            ("notes.txt".toList, [[RVal.r 5]]),
            ("2005.txt".toList, [[RVal.r 6]])]⟩)
          (Year.str "all".toList) ['A'] []
        = ingest (some ⟨[['A']],
            [("2003.txt".toList, [[RVal.r 4]]),
              ("2005.txt".toList, [[RVal.r 6]])]⟩)
            (Year.str "all".toList) ['A'] [] :=
  ⟨name_filter_spec.1 "2005.txt".toList (by decide),
    name_filter_spec.2.1 [['A']]
      [("2003.txt".toList, [[RVal.r 4]])]
      [("2005.txt".toList, [[RVal.r 6]])]
      ("notes.txt".toList, [[RVal.r 5]]) (Year.str "all".toList) ['A'] []
      (by decide)⟩

theorem cleanQ_filter (data : List RVal) :
    cleanQ (data.filter (fun x => RVal.isFinite x)) = cleanQ data := by
  induction data with
  | nil => rfl
  | cons x xs ih =>
    cases x <;>
      simp [cleanQ, List.filter_cons, RVal.isFinite, List.filterMap_cons] at * <;>
      exact ih

theorem cleanQ_length_all_finite (data : List RVal)
    (h : ∀ x ∈ data, RVal.isFinite x = true) :
    (cleanQ data).length = data.length := by
  induction data with
  | nil => rfl
  | cons x xs ih =>
    cases x with
    | r q =>
      simp only [cleanQ, List.filterMap_cons, List.length_cons]
      have := ih (fun y hy => h y (List.mem_cons_of_mem _ hy))
      simp only [cleanQ] at this
      rw [this]
    | nan => exact absurd (h RVal.nan (List.mem_cons_self _ _)) (by decide)
    | pinf => exact absurd (h RVal.pinf (List.mem_cons_self _ _)) (by decide)
    | ninf => exact absurd (h RVal.ninf (List.mem_cons_self _ _)) (by decide)

/-- C4 counterexample: on the input `[1.0, NaN]` (one finite value), the
engine succeeds, but its dispersion-band mean marker is `data.mean()` of
the RAW array, which is NaN; on the same array with the non-finite entry
removed the mean marker is 1.0 — so not every computed output equals the
output computed from the cleaned array. -/
theorem qq_plot_band_uses_raw_mean :
    qqMeanMarker (qq_plot (fun _ => RVal.r 0) [RVal.r 1, RVal.nan] true 1)
        = some RVal.nan
    ∧ qqMeanMarker (qq_plot (fun _ => RVal.r 0)
          ([RVal.r 1, RVal.nan].filter (fun x => RVal.isFinite x)) true 1)
        = some (RVal.r 1)
    ∧ RVal.nan ≠ RVal.r 1 := by
  refine ⟨rfl, ?_, by decide⟩
  have hm : qqMeanMarker (qq_plot (fun _ => RVal.r 0)
        ([RVal.r 1, RVal.nan].filter (fun x => RVal.isFinite x)) true 1)
      = some (pyMean [RVal.r 1]) := rfl
  rw [hm]
  simp [pyMean, listSumR, RVal.divNat, RVal.add]

/-- C4 (amended): for every input with at least one finite value the
engine does not fail; the quantile pairs and the reference-line endpoints
equal those computed from the same array with all non-finite entries
removed; but the dispersion-band markers are computed from the raw input
array's mean and standard deviation (`data.mean()`, `data.std()` on
lines 107-108), so they need not equal the cleaned-array markers when
non-finite entries are present. -/
theorem qq_plot_nonfinite_spec (ppf : ℚ → RVal) (data : List RVal)
    (line : Bool) (k : ℚ) (h : ¬(cleanQ data).length = 0) :
    qqOk (qq_plot ppf data line k) = true
    ∧ qqPoints (qq_plot ppf data line k)
        = qqPoints (qq_plot ppf (data.filter (fun x => RVal.isFinite x)) line k)
    ∧ qqRefLine (qq_plot ppf data line k)
        = qqRefLine (qq_plot ppf (data.filter (fun x => RVal.isFinite x)) line k)
    ∧ qqMeanMarker (qq_plot ppf data line k)
        = (if line then some (pyMean data) else none)
    ∧ qqLowMarker (qq_plot ppf data line k)
        = (if line then
            some (RVal.sub (pyMean data) (RVal.mul (RVal.r k) (pyStd data)))
          else none)
    ∧ qqHighMarker (qq_plot ppf data line k)
        = (if line then
            some (RVal.add (pyMean data) (RVal.mul (RVal.r k) (pyStd data)))
          else none) := by
  refine ⟨?_, ?_, ?_, ?_, ?_, ?_⟩ <;>
    · simp only [qq_plot, cleanQ_filter, if_neg h]
      cases line <;> rfl

theorem qq_plot_nonfinite_spec_witness :
    qqOk (qq_plot (fun _ => RVal.r 0) [RVal.r 1, RVal.nan] true 1) = true
    ∧ qqPoints (qq_plot (fun _ => RVal.r 0) [RVal.r 1, RVal.nan] true 1)
        = qqPoints (qq_plot (fun _ => RVal.r 0)
            ([RVal.r 1, RVal.nan].filter (fun x => RVal.isFinite x)) true 1)
    ∧ qqRefLine (qq_plot (fun _ => RVal.r 0) [RVal.r 1, RVal.nan] true 1)
        = qqRefLine (qq_plot (fun _ => RVal.r 0)
            ([RVal.r 1, RVal.nan].filter (fun x => RVal.isFinite x)) true 1)
    ∧ qqMeanMarker (qq_plot (fun _ => RVal.r 0) [RVal.r 1, RVal.nan] true 1)
        = (if true then some (pyMean [RVal.r 1, RVal.nan]) else none)
    ∧ qqLowMarker (qq_plot (fun _ => RVal.r 0) [RVal.r 1, RVal.nan] true 1)
        = (if true then
            some (RVal.sub (pyMean [RVal.r 1, RVal.nan])
              (RVal.mul (RVal.r 1) (pyStd [RVal.r 1, RVal.nan])))
          else none)
    ∧ qqHighMarker (qq_plot (fun _ => RVal.r 0) [RVal.r 1, RVal.nan] true 1)
        = (if true then
            some (RVal.add (pyMean [RVal.r 1, RVal.nan])
              (RVal.mul (RVal.r 1) (pyStd [RVal.r 1, RVal.nan])))
          else none) :=
  qq_plot_nonfinite_spec (fun _ => RVal.r 0) [RVal.r 1, RVal.nan] true 1
    (by decide)

/-- C7 counterexample: on the input `[2.0, +Inf]` with multiplier 1, the
cleaned sample used for the quantile pairs is `[2.0]` (mean 2, standard
deviation 0), so the claim requires markers (2, 2, 2); but the code takes
`data.mean()` and `data.std()` from the RAW array, producing markers
(+Inf, NaN, NaN). -/
theorem band_markers_raw_vs_clean :
    qqMeanMarker (qq_plot (fun _ => RVal.r 0) [RVal.r 2, RVal.pinf] true 1)
        = some RVal.pinf
    ∧ qqLowMarker (qq_plot (fun _ => RVal.r 0) [RVal.r 2, RVal.pinf] true 1)
        = some RVal.nan
    ∧ qqHighMarker (qq_plot (fun _ => RVal.r 0) [RVal.r 2, RVal.pinf] true 1)
        = some RVal.nan
    ∧ qqMeanMarker (qq_plot (fun _ => RVal.r 0)
          ([RVal.r 2, RVal.pinf].filter (fun x => RVal.isFinite x)) true 1)
        = some (RVal.r 2)
    ∧ qqLowMarker (qq_plot (fun _ => RVal.r 0)
          ([RVal.r 2, RVal.pinf].filter (fun x => RVal.isFinite x)) true 1)
        = some (RVal.r 2)
    ∧ qqHighMarker (qq_plot (fun _ => RVal.r 0)
          ([RVal.r 2, RVal.pinf].filter (fun x => RVal.isFinite x)) true 1)
        = some (RVal.r 2)
    ∧ RVal.pinf ≠ RVal.r 2 := by
  have hm : pyMean [RVal.r 2] = RVal.r 2 := by
    simp [pyMean, listSumR, RVal.divNat, RVal.add]
  have hs : pyStd [RVal.r 2] = RVal.r 0 := by
    simp [pyStd, pyMean, listSumR, RVal.sub, RVal.neg, RVal.add, RVal.mul,
      RVal.divNat, RVal.sqrt]
  have h1 : qqMeanMarker (qq_plot (fun _ => RVal.r 0)
      ([RVal.r 2, RVal.pinf].filter (fun x => RVal.isFinite x)) true 1)
      = some (pyMean [RVal.r 2]) := rfl
  have h2 : qqLowMarker (qq_plot (fun _ => RVal.r 0)
      ([RVal.r 2, RVal.pinf].filter (fun x => RVal.isFinite x)) true 1)
      = some (RVal.sub (pyMean [RVal.r 2])
          (RVal.mul (RVal.r 1) (pyStd [RVal.r 2]))) := rfl
  have h3 : qqHighMarker (qq_plot (fun _ => RVal.r 0)
      ([RVal.r 2, RVal.pinf].filter (fun x => RVal.isFinite x)) true 1)
      = some (RVal.add (pyMean [RVal.r 2])
          (RVal.mul (RVal.r 1) (pyStd [RVal.r 2]))) := rfl
  refine ⟨rfl, rfl, rfl, ?_, ?_, ?_, by decide⟩
  · rw [h1, hm]
  · rw [h2, hm, hs]
    simp [RVal.sub, RVal.neg, RVal.add, RVal.mul]
  · rw [h3, hm, hs]
    simp [RVal.add, RVal.mul]

/-- C7 (amended): for every input with at least one finite value and every
multiplier k, the three dispersion-band reference markers are μ, μ − kσ
and μ + kσ where μ and σ are the mean and (population) standard deviation
of the RAW input array; when the input has no non-finite entries the raw
array coincides with the cleaned sample used for the quantile pairs, and
only then are these the cleaned-sample markers the claim describes. -/
theorem band_markers_spec (ppf : ℚ → RVal) (data : List RVal) (k : ℚ)
    (h : ¬(cleanQ data).length = 0) :
    qqMeanMarker (qq_plot ppf data true k) = some (pyMean data)
    ∧ qqLowMarker (qq_plot ppf data true k)
        = some (RVal.sub (pyMean data) (RVal.mul (RVal.r k) (pyStd data)))
    ∧ qqHighMarker (qq_plot ppf data true k)
        = some (RVal.add (pyMean data) (RVal.mul (RVal.r k) (pyStd data)))
    ∧ ((∀ x ∈ data, RVal.isFinite x = true) →
        qqMeanMarker (qq_plot ppf data true k)
          = some (pyMean (data.filter (fun x => RVal.isFinite x)))
        ∧ qqLowMarker (qq_plot ppf data true k)
          = some (RVal.sub (pyMean (data.filter (fun x => RVal.isFinite x)))
              (RVal.mul (RVal.r k)
                (pyStd (data.filter (fun x => RVal.isFinite x)))))
        ∧ qqHighMarker (qq_plot ppf data true k)
          = some (RVal.add (pyMean (data.filter (fun x => RVal.isFinite x)))
              (RVal.mul (RVal.r k)
                (pyStd (data.filter (fun x => RVal.isFinite x)))))) := by
  have hmean : qqMeanMarker (qq_plot ppf data true k) = some (pyMean data) := by
    simp only [qq_plot, if_neg h]
    rfl
  have hlow : qqLowMarker (qq_plot ppf data true k)
      = some (RVal.sub (pyMean data) (RVal.mul (RVal.r k) (pyStd data))) := by
    simp only [qq_plot, if_neg h]
    rfl
  have hhigh : qqHighMarker (qq_plot ppf data true k)
      = some (RVal.add (pyMean data) (RVal.mul (RVal.r k) (pyStd data))) := by
    simp only [qq_plot, if_neg h]
    rfl
  refine ⟨hmean, hlow, hhigh, fun hfin => ?_⟩
  rw [List.filter_eq_self.mpr hfin]
  exact ⟨hmean, hlow, hhigh⟩

theorem band_markers_spec_witness :
    qqMeanMarker (qq_plot (fun _ => RVal.r 0) [RVal.r 2, RVal.r 4] true 2)
        = some (pyMean [RVal.r 2, RVal.r 4])
    ∧ qqLowMarker (qq_plot (fun _ => RVal.r 0) [RVal.r 2, RVal.r 4] true 2)
        = some (RVal.sub (pyMean [RVal.r 2, RVal.r 4])
            (RVal.mul (RVal.r 2) (pyStd [RVal.r 2, RVal.r 4])))
    ∧ qqHighMarker (qq_plot (fun _ => RVal.r 0) [RVal.r 2, RVal.r 4] true 2)
        = some (RVal.add (pyMean [RVal.r 2, RVal.r 4])
            (RVal.mul (RVal.r 2) (pyStd [RVal.r 2, RVal.r 4])))
    ∧ (qqMeanMarker (qq_plot (fun _ => RVal.r 0) [RVal.r 2, RVal.r 4] true 2)
          = some (pyMean
              ([RVal.r 2, RVal.r 4].filter (fun x => RVal.isFinite x)))
        ∧ qqLowMarker (qq_plot (fun _ => RVal.r 0) [RVal.r 2, RVal.r 4] true 2)
          = some (RVal.sub
              (pyMean ([RVal.r 2, RVal.r 4].filter (fun x => RVal.isFinite x)))
              (RVal.mul (RVal.r 2)
                (pyStd ([RVal.r 2, RVal.r 4].filter (fun x => RVal.isFinite x)))))
        ∧ qqHighMarker (qq_plot (fun _ => RVal.r 0) [RVal.r 2, RVal.r 4] true 2)
          = some (RVal.add
              (pyMean ([RVal.r 2, RVal.r 4].filter (fun x => RVal.isFinite x)))
              (RVal.mul (RVal.r 2)
                (pyStd ([RVal.r 2, RVal.r 4].filter
                  (fun x => RVal.isFinite x)))))) :=
  ⟨(band_markers_spec (fun _ => RVal.r 0) [RVal.r 2, RVal.r 4] 2 (by decide)).1,
    (band_markers_spec (fun _ => RVal.r 0) [RVal.r 2, RVal.r 4] 2 (by decide)).2.1,
    (band_markers_spec (fun _ => RVal.r 0) [RVal.r 2, RVal.r 4] 2 (by decide)).2.2.1,
    (band_markers_spec (fun _ => RVal.r 0) [RVal.r 2, RVal.r 4] 2
      (by decide)).2.2.2 (by decide)⟩

theorem linspace_length (a b : ℚ) (n : Nat) : (linspace a b n).length = n := by
  unfold linspace
  by_cases h0 : n = 0
  · rw [if_pos h0, h0]
    rfl
  · rw [if_neg h0]
    by_cases h1 : n = 1
    · rw [if_pos h1, h1]
      rfl
    · rw [if_neg h1]
      simp

theorem linspace_getD (a b : ℚ) (n : Nat) (hn : 2 ≤ n) (i : Nat)
    (hi : i < n) :
    (linspace a b n).getD i 0 = a + (b - a) * i / ((n : ℚ) - 1) := by
  unfold linspace
  rw [if_neg (by omega), if_neg (by omega)]
  rw [List.getD_eq_getElem?_getD, List.getElem?_map, List.getElem?_range hi]
  rfl

theorem linspace_getD_zero (a b : ℚ) (n : Nat) (hn : 1 ≤ n) :
    (linspace a b n).getD 0 0 = a := by
  by_cases h1 : n = 1
  · subst h1
    rfl
  · rw [linspace_getD a b n (by omega) 0 (by omega)]
    simp

theorem linspace_getD_last (a b : ℚ) (n : Nat) (hn : 2 ≤ n) :
    (linspace a b n).getD (n - 1) 0 = b := by
  rw [linspace_getD a b n hn (n - 1) (by omega)]
  have h1 : (1 : Nat) ≤ n := by omega
  have hcast : ((n - 1 : Nat) : ℚ) = (n : ℚ) - 1 := by
    rw [Nat.cast_sub h1]
    simp
  have hne : (n : ℚ) - 1 ≠ 0 := by
    have h2 : (2 : ℚ) ≤ (n : ℚ) := by exact_mod_cast hn
    linarith
  rw [hcast, mul_div_assoc, div_self hne, mul_one]
  ring

theorem linspace_mem_bounds (n : Nat) (x : ℚ)
    (hx : x ∈ linspace (1/100) (99/100) n) : 1/100 ≤ x ∧ x ≤ 99/100 := by
  unfold linspace at hx
  by_cases h0 : n = 0
  · rw [if_pos h0] at hx
    simp at hx
  · rw [if_neg h0] at hx
    by_cases h1 : n = 1
    · rw [if_pos h1] at hx
      simp at hx
      subst hx
      norm_num
    · rw [if_neg h1] at hx
      simp only [List.mem_map, List.mem_range] at hx
      obtain ⟨i, hi, rfl⟩ := hx
      have h2 : 2 ≤ n := by omega
      have hpos : (0 : ℚ) < (n : ℚ) - 1 := by
        have h2' : (2 : ℚ) ≤ (n : ℚ) := by exact_mod_cast h2
        linarith
      have hile : (i : ℚ) ≤ (n : ℚ) - 1 := by
        have hi' : (i : ℚ) + 1 ≤ (n : ℚ) := by exact_mod_cast hi
        linarith
      have hba : (0 : ℚ) ≤ 99/100 - 1/100 := by norm_num
      have hnonneg : (0 : ℚ) ≤ (99/100 - 1/100) * (i : ℚ) / ((n : ℚ) - 1) :=
        div_nonneg (mul_nonneg hba (by positivity)) (le_of_lt hpos)
      have hle : (99/100 - 1/100 : ℚ) * (i : ℚ) / ((n : ℚ) - 1)
          ≤ 99/100 - 1/100 := by
        rw [div_le_iff₀ hpos]
        exact mul_le_mul_of_nonneg_left hile hba
      constructor
      · linarith
      · linarith

/-- C5 counterexample: for the one-element Sample `[5.0]` (N = 1, which
the claim admits), the probability-level grid `np.linspace(0.01, 0.99, 1)`
is just `[0.01]`: the level 0.99 is not attained, so the levels are not
spread over the closed interval [0.01, 0.99] inclusive of both
endpoints. -/
theorem qq_plot_single_point_levels :
    qqPoints (qq_plot RVal.r [RVal.r 5] false 1) = [(RVal.r (1/100), 5)]
    ∧ RVal.r (99/100)
        ∉ (qqPoints (qq_plot RVal.r [RVal.r 5] false 1)).map Prod.fst := by
  refine ⟨rfl, ?_⟩
  have hp : (qqPoints (qq_plot RVal.r [RVal.r 5] false 1)).map Prod.fst
      = [RVal.r (1/100)] := rfl
  rw [hp]
  intro hmem
  simp only [List.mem_singleton, RVal.r.injEq] at hmem
  norm_num at hmem

/-- C5 (amended): for a Sample of size N ≥ 1 with no non-finite values,
the engine produces exactly N quantile pairs, whose empirical components
are the ascending-sorted sample (hence non-decreasing) and whose
theoretical components are the images under the quantile function of
`linspace 0.01 0.99 N`: N levels, all inside [0.01, 0.99], starting at
0.01 and equally spaced with step 0.98/(N-1); for N ≥ 2 the last level is
0.99 so both endpoints are attained, while for N = 1 the single level is
0.01 and 0.99 is not attained. -/
theorem qq_plot_quantile_grid_spec (ppf : ℚ → RVal) (data : List RVal)
    (line : Bool) (k : ℚ)
    (hfin : ∀ x ∈ data, RVal.isFinite x = true)
    (hN : 1 ≤ data.length) :
    (qqPoints (qq_plot ppf data line k)).length = data.length
    ∧ (qqPoints (qq_plot ppf data line k)).map Prod.fst
        = (linspace (1/100) (99/100) data.length).map ppf
    ∧ (qqPoints (qq_plot ppf data line k)).map Prod.snd
        = (cleanQ data).insertionSort (fun a b => a ≤ b)
    ∧ List.Sorted (fun a b : ℚ => a ≤ b)
        ((qqPoints (qq_plot ppf data line k)).map Prod.snd)
    ∧ ((qqPoints (qq_plot ppf data line k)).map Prod.snd).Perm (cleanQ data)
    ∧ (linspace (1/100) (99/100) data.length).length = data.length
    ∧ (linspace (1/100) (99/100) data.length).getD 0 0 = 1/100
    ∧ (2 ≤ data.length →
        (linspace (1/100) (99/100) data.length).getD (data.length - 1) 0
          = 99/100)
    ∧ (2 ≤ data.length → ∀ i, i < data.length →
        (linspace (1/100) (99/100) data.length).getD i 0
          = 1/100 + (99/100 - 1/100) * i / ((data.length : ℚ) - 1))
    ∧ (∀ x ∈ linspace (1/100) (99/100) data.length,
        1/100 ≤ x ∧ x ≤ 99/100) := by
  have hlen : (cleanQ data).length = data.length :=
    cleanQ_length_all_finite data hfin
  have h0 : ¬(cleanQ data).length = 0 := by omega
  have hpts : qqPoints (qq_plot ppf data line k)
      = ((linspace (1/100) (99/100) (cleanQ data).length).map ppf).zip
          ((cleanQ data).insertionSort (fun a b => a ≤ b)) := by
    simp only [qq_plot, if_neg h0]
    cases line <;> rfl
  have hlq : ((linspace (1/100) (99/100) (cleanQ data).length).map ppf).length
      = data.length := by
    simp [linspace_length, hlen]
  have hls : ((cleanQ data).insertionSort (fun a b => a ≤ b)).length
      = data.length := by
    simp [List.length_insertionSort, hlen]
  have hsnd : (qqPoints (qq_plot ppf data line k)).map Prod.snd
      = (cleanQ data).insertionSort (fun a b => a ≤ b) := by
    rw [hpts]
    exact List.map_snd_zip _ _ (by rw [hlq, hls])
  refine ⟨?_, ?_, hsnd, ?_, ?_, linspace_length _ _ _,
    linspace_getD_zero _ _ _ hN, fun h2 => linspace_getD_last _ _ _ h2,
    fun h2 i hi => linspace_getD _ _ _ h2 i hi,
    fun x hx => linspace_mem_bounds _ x hx⟩
  · rw [hpts]
    simp [List.length_zip, linspace_length, List.length_insertionSort, hlen]
  · rw [hpts, hlen]
    exact List.map_fst_zip _ _
      (by simp [linspace_length, List.length_insertionSort, hlen])
  · rw [hsnd]
    exact List.sorted_insertionSort (fun a b : ℚ => a ≤ b) (cleanQ data)
  · rw [hsnd]
    exact List.perm_insertionSort (fun a b : ℚ => a ≤ b) (cleanQ data)

theorem qq_plot_quantile_grid_spec_witness :
    (qqPoints (qq_plot RVal.r [RVal.r 3, RVal.r 1] false 1)).length
        = [RVal.r 3, RVal.r 1].length
    ∧ (qqPoints (qq_plot RVal.r [RVal.r 3, RVal.r 1] false 1)).map Prod.fst
        = (linspace (1/100) (99/100) [RVal.r 3, RVal.r 1].length).map RVal.r
    ∧ (qqPoints (qq_plot RVal.r [RVal.r 3, RVal.r 1] false 1)).map Prod.snd
        = (cleanQ [RVal.r 3, RVal.r 1]).insertionSort (fun a b => a ≤ b)
    ∧ List.Sorted (fun a b : ℚ => a ≤ b)
        ((qqPoints (qq_plot RVal.r [RVal.r 3, RVal.r 1] false 1)).map Prod.snd)
    ∧ ((qqPoints (qq_plot RVal.r [RVal.r 3, RVal.r 1] false 1)).map
          Prod.snd).Perm (cleanQ [RVal.r 3, RVal.r 1])
    ∧ (linspace (1/100) (99/100) [RVal.r 3, RVal.r 1].length).length
        = [RVal.r 3, RVal.r 1].length
    ∧ (linspace (1/100) (99/100) [RVal.r 3, RVal.r 1].length).getD 0 0 = 1/100
    ∧ (2 ≤ [RVal.r 3, RVal.r 1].length →
        (linspace (1/100) (99/100) [RVal.r 3, RVal.r 1].length).getD
            ([RVal.r 3, RVal.r 1].length - 1) 0 = 99/100)
    ∧ (2 ≤ [RVal.r 3, RVal.r 1].length → ∀ i, i < [RVal.r 3, RVal.r 1].length →
        (linspace (1/100) (99/100) [RVal.r 3, RVal.r 1].length).getD i 0
          = 1/100 + (99/100 - 1/100) * i
              / (([RVal.r 3, RVal.r 1].length : ℚ) - 1))
    ∧ (∀ x ∈ linspace (1/100) (99/100) [RVal.r 3, RVal.r 1].length,
        1/100 ≤ x ∧ x ≤ 99/100) :=
  qq_plot_quantile_grid_spec RVal.r [RVal.r 3, RVal.r 1] false 1
    (by decide) (by decide)
